import Mathlib

set_option autoImplicit false

/-!
Verification development for the transaction-driver state machine of a
consensus-replicated storage node (header `transaction_driver.h`) and for
the stack-trace hex formatter `StackTrace::StringifyToHex`
(`src/yb/util/debug-util.cc`).

The driver's method bodies are not part of the visible sources (only the
header with its declarations and behavioral comments is), so the state
machine is modelled from the specification's transition table and method
descriptions; definitions taken directly from visible code are noted as
such.
-/

namespace TxnDriver

/-- From `transaction_driver.h` (enum `ReplicationState`). -/
inductive ReplicationState where
  | NOT_REPLICATING
  | REPLICATING
  | REPLICATION_FAILED
  | REPLICATED
  deriving DecidableEq, Repr

/-- From `transaction_driver.h` (enum `PrepareState`). -/
inductive PrepareState where
  | NOT_PREPARED
  | PREPARED
  deriving DecidableEq, Repr

/-- From `transaction_driver.h` (`consensus::DriverType`): whether the driver
was instantiated on the leader path or the replica/follower path. -/
inductive DriverType where
  | LEADER
  | REPLICA
  deriving DecidableEq, Repr

/-- Operation id assigned by consensus (`consensus::OpId`): a term and an index. -/
structure OpId where
  term : Nat
  index : Nat
  deriving DecidableEq, Repr

/-- A status: OK or an error with a code. -/
inductive Status where
  | OK
  | Err (code : Nat)
  deriving DecidableEq, Repr

/-- Modelled from the spec: the observable state of one `TransactionDriver`
(the `.cc` with the field updates is missing; fields follow §3 DATA MODEL).
`applyCount` counts apply tasks submitted to the apply executor,
`failedStatus` records a failure delivered back to the caller,
`fatal` records the fatal-process condition of post-commit failure handling,
`commitSubmitted`/`commitDurable` track the commit record in the durability
log, `finalized`/`repliedSuccess` track `Finalize` and the success reply,
`abortStatus` records an `Abort` request, `released` that the driver was
released back to the registry after a failure. -/
structure DriverState where
  repl : ReplicationState
  prep : PrepareState
  opId : Option OpId
  applyCount : Nat
  abortStatus : Option Status
  failedStatus : Option Status
  fatal : Bool
  released : Bool
  commitSubmitted : Bool
  commitDurable : Bool
  finalized : Bool
  repliedSuccess : Bool
  deriving DecidableEq, Repr

/-- Modelled from the spec: `Init(operation, mode)` "records whether the driver
was created because replication is already underway (follower path,
`replication_state = REPLICATING` immediately) or because this node is
originating the operation (leader path, `replication_state = NOT_REPLICATING`)";
matches the header comment at step 1. Everything else starts unset. -/
def init (d : DriverType) : DriverState :=
  { repl := match d with
      | DriverType.REPLICA => ReplicationState.REPLICATING
      | DriverType.LEADER => ReplicationState.NOT_REPLICATING
    prep := PrepareState.NOT_PREPARED
    opId := none
    applyCount := 0
    abortStatus := none
    failedStatus := none
    fatal := false
    released := false
    commitSubmitted := false
    commitDurable := false
    finalized := false
    repliedSuccess := false }

/-- From `transaction_driver.h` lines 159-163:
`return replication_state_ == ReplicationState::NOT_REPLICATING;`. -/
def is_leader_side (st : DriverState) : Bool :=
  st.repl = ReplicationState.NOT_REPLICATING

/-- From `transaction_driver.h` (`GetOpId`): returns the driver's copy of the
operation id, the uninitialized (`none`) value until one has been assigned. -/
def GetOpId (st : DriverState) : Option OpId :=
  st.opId

/-- Modelled from the spec: `HandleFailure(status)` (§4.1): "if the operation
has not yet replicated or apply has not started, it is safe to fail the
operation back to the caller with the given status and release it. If failure
occurs after replication has been durably committed by quorum ... this
condition is treated as unrecoverable for the local process (abrupt
termination)". -/
def handleFailure (s : Status) (st : DriverState) : DriverState :=
  if st.repl = ReplicationState.REPLICATED then
    { st with fatal := true }
  else
    { st with failedStatus := some s, released := true }

/-- Modelled from the spec: `ApplyAsync()` "submits an apply task to the apply
executor" (§4.1); we count submissions. -/
def applyAsync (st : DriverState) : DriverState :=
  { st with applyCount := st.applyCount + 1 }

/-- Modelled from the spec: the asynchronous events that drive one
`TransactionDriver` (§4.1 state machine summary table).
`prepareDone`/`prepareFail` are the outcomes of `PrepareAndStart`,
`submitReplicationOk`/`submitReplicationFail` the outcome of handing the
round to the replication port, `replicationFinished` the consensus callback
(carrying the consensus-assigned operation id), `applyTaskRun` the apply
task running on the apply executor (enqueuing the commit record), and
`commitRecordDurable` the durability log's confirmation, which runs
`Finalize`. -/
inductive Event where
  | prepareDone
  | prepareFail (s : Status)
  | submitReplicationOk
  | submitReplicationFail (s : Status)
  | replicationFinished (s : Status) (id : OpId)
  | abort (s : Status)
  | applyTaskRun
  | commitRecordDurable
  deriving DecidableEq, Repr

/-- Modelled from the spec: the transition function of the driver, following
the §4.1 table row by row. Events whose precondition does not hold leave the
state unchanged (the spec delivers each completion callback at most once;
the guards make redeliveries no-ops). An abort recorded before the prepare
synchronization point routes prepare into failure handling (§4.1 `Abort`:
"fail at its next safe synchronization point"); `Finalize` replies success
only if no abort was recorded (§7: the driver "suppresses any visible
success to the caller once commit occurs"). -/
def step (st : DriverState) (e : Event) : DriverState :=
  match e with
  | Event.prepareDone =>
    if st.prep = PrepareState.NOT_PREPARED then
      match st.abortStatus with
      | some s => handleFailure s st
      | none =>
        let st' := { st with prep := PrepareState.PREPARED }
        if st'.repl = ReplicationState.REPLICATED then applyAsync st' else st'
    else st
  | Event.prepareFail s =>
    if st.prep = PrepareState.NOT_PREPARED then handleFailure s st else st
  | Event.submitReplicationOk =>
    if st.repl = ReplicationState.NOT_REPLICATING then
      { st with repl := ReplicationState.REPLICATING }
    else st
  | Event.submitReplicationFail s =>
    if st.repl = ReplicationState.NOT_REPLICATING then
      handleFailure s { st with repl := ReplicationState.REPLICATION_FAILED }
    else st
  | Event.replicationFinished s id =>
    if st.repl = ReplicationState.REPLICATING then
      match s with
      | Status.OK =>
        let st' := { st with repl := ReplicationState.REPLICATED, opId := some id }
        if st'.prep = PrepareState.PREPARED then applyAsync st' else st'
      | Status.Err c =>
        handleFailure (Status.Err c)
          { st with repl := ReplicationState.REPLICATION_FAILED, opId := some id }
    else st
  | Event.abort s =>
    if st.abortStatus = none then { st with abortStatus := some s } else st
  | Event.applyTaskRun =>
    if 0 < st.applyCount ∧ st.commitSubmitted = false then
      { st with commitSubmitted := true }
    else st
  | Event.commitRecordDurable =>
    if st.commitSubmitted = true ∧ st.finalized = false then
      { st with commitDurable := true, finalized := true,
                repliedSuccess := st.abortStatus = none }
    else st

/-- Run a sequence of events from a state. -/
def run (st : DriverState) (es : List Event) : DriverState :=
  es.foldl step st

/-- A state is reachable if some event sequence from some `init` produces it. -/
def Reachable (st : DriverState) : Prop :=
  ∃ (d : DriverType) (es : List Event), run (init d) es = st

/-- The state invariant maintained by every transition: at most one apply task
is ever scheduled; an apply task exists only once prepare and replication have
both succeeded; the operation id is set only once the replication callback has
fired; the commit record is enqueued only by the apply task; durability of the
commit record precedes `Finalize`, which precedes any success reply. -/
def Inv (st : DriverState) : Prop :=
  st.applyCount ≤ 1 ∧
  (0 < st.applyCount →
    st.prep = PrepareState.PREPARED ∧ st.repl = ReplicationState.REPLICATED) ∧
  (st.opId ≠ none →
    st.repl = ReplicationState.REPLICATED ∨
    st.repl = ReplicationState.REPLICATION_FAILED) ∧
  (st.commitSubmitted = true → 0 < st.applyCount) ∧
  (st.commitDurable = true → st.commitSubmitted = true) ∧
  (st.finalized = true → st.commitDurable = true) ∧
  (st.repliedSuccess = true → st.finalized = true)

/-- Numeric rank of the replication dimension: failure and success are both
final stages. -/
def replRank : ReplicationState → Nat
  | ReplicationState.NOT_REPLICATING => 0
  | ReplicationState.REPLICATING => 1
  | ReplicationState.REPLICATION_FAILED => 2
  | ReplicationState.REPLICATED => 2

/-- Numeric rank of the prepare dimension. -/
def prepRank : PrepareState → Nat
  | PrepareState.NOT_PREPARED => 0
  | PrepareState.PREPARED => 1

/-- Whether an event is the consensus completion callback, the only event that
assigns the driver's copy of the operation id. -/
def isAssignEvent : Event → Bool
  | Event.replicationFinished _ _ => true
  | _ => false

end TxnDriver

namespace DebugUtil

/-- From `debug-util.cc`: the length of one hex-encoded frame entry; the width
of the output of `FastHex64ToBuffer`, 16 hex digits for a 64-bit address. -/
def kHexEntryLength : Nat := 16

/-- Modelled from the spec: `kMaxFrames`, the capacity of the `StackTrace`
frame array (declared in the debug-util header, which is not among the
visible sources). -/
def kMaxFrames : Nat := 16

/-- One byte store into the output buffer: offset (relative to `buf`) and the
byte value stored there. -/
structure WriteOp where
  off : Nat
  byte : Nat
  deriving DecidableEq, Repr

/-- From gutil `FastHex64ToBuffer`: the ASCII code of the lowercase hex digit
for a nibble value. -/
def hexDigitChar (d : Nat) : Nat :=
  if d < 10 then 48 + d else 87 + d

/-- From gutil `FastHex64ToBuffer`: stores the 16 lowercase hex digits of the
64-bit value at offsets `dst .. dst+15` (most significant nibble first) and a
NUL terminator at `dst + 16`. -/
def fastHex64Writes (value dst : Nat) : List WriteOp :=
  ((List.range 16).map fun j => ⟨dst + j, hexDigitChar (value / 16 ^ (15 - j) % 16)⟩)
    ++ [⟨dst + 16, 0⟩]

/-- From `StackTrace::StringifyToHex` (debug-util.cc lines 444-464): the byte
stores performed by the frame loop. `i` is the loop index, `dst` the current
cursor offset, `limit` the offset of the reserved-space limit pointer; the
loop runs while frames remain and `dst < limit`; each iteration stores a
separating space (except before the first frame), decrements the address
unless `NO_FIX_CALLER_ADDRESSES` is set (64-bit wrap-around), and hex-encodes
it via `FastHex64ToBuffer`. -/
def stringifyWrites : List Nat → Nat → Nat → Nat → Bool → List WriteOp
  | [], _, _, _, _ => []
  | addr :: rest, i, dst, limit, noFix =>
    if dst < limit then
      (if i ≠ 0 then [⟨dst, 32⟩] else []) ++
        fastHex64Writes
          (if noFix then addr % 2 ^ 64 else (addr + (2 ^ 64 - 1)) % 2 ^ 64)
          (if i ≠ 0 then dst + 1 else dst) ++
        stringifyWrites rest (i + 1)
          ((if i ≠ 0 then dst + 1 else dst) + kHexEntryLength) limit noFix
    else []

/-- From `StackTrace::StringifyToHex`: the value of the cursor `dst` when the
frame loop exits (the same iteration as `stringifyWrites`, tracking only the
cursor). -/
def stringifyFinalDst : List Nat → Nat → Nat → Nat → Nat
  | [], _, dst, _ => dst
  | _ :: rest, i, dst, limit =>
    if dst < limit then
      stringifyFinalDst rest (i + 1) ((if i ≠ 0 then dst + 1 else dst) + kHexEntryLength) limit
    else dst

/-- From `StackTrace::StringifyToHex` (debug-util.cc lines 444-464): the full
sequence of byte stores of one call, for a buffer of `size` bytes: the limit
pointer is `buf + size - kHexEntryLength - 2`, the frame loop runs, and the
final `*dst = '\0'` stores a NUL at the exit cursor. -/
def stringifyToHex (frames : List Nat) (size : Nat) (noFix : Bool) : List WriteOp :=
  stringifyWrites frames 0 0 (size - kHexEntryLength - 2) noFix ++
    [⟨stringifyFinalDst frames 0 0 (size - kHexEntryLength - 2), 0⟩]

/-- Apply a sequence of byte stores, in order, to a buffer (modelled as a
function from offsets to byte values); later stores win. -/
def applyWrites (ws : List WriteOp) (buf : Nat → Nat) : Nat → Nat :=
  ws.foldl (fun b w => fun k => if k = w.off then w.byte else b k) buf

end DebugUtil

namespace TxnDriver

theorem run_append (st : DriverState) (es fs : List Event) :
    run st (es ++ fs) = run (run st es) fs := by
  simp [run, List.foldl_append]

theorem reachable_init (d : DriverType) : Reachable (init d) :=
  ⟨d, [], rfl⟩

theorem reachable_step {st : DriverState} (h : Reachable st) (e : Event) :
    Reachable (step st e) := by
  obtain ⟨d, es, hes⟩ := h
  exact ⟨d, es ++ [e], by rw [run_append, hes]; rfl⟩

theorem inv_init (d : DriverType) : Inv (init d) := by
  cases d <;> simp [Inv, init]

theorem inv_step {st : DriverState} (h : Inv st) (e : Event) : Inv (step st e) := by
  obtain ⟨h1, h2, h3, h4, h5, h6, h7⟩ := h
  cases e <;>
    simp only [step, handleFailure, applyAsync, Inv] <;>
    (repeat' split) <;>
    simp_all

theorem inv_run {st : DriverState} (h : Inv st) (es : List Event) :
    Inv (run st es) := by
  induction es generalizing st with
  | nil => exact h
  | cons e es ih => exact ih (inv_step h e)

theorem reachable_inv {st : DriverState} (h : Reachable st) : Inv st := by
  obtain ⟨d, es, hes⟩ := h
  exact hes ▸ inv_run (inv_init d) es

theorem step_repl_forward (st : DriverState) (e : Event) :
    replRank st.repl ≤ replRank (step st e).repl := by
  cases e <;>
    simp only [step, handleFailure, applyAsync] <;>
    (repeat' split) <;>
    simp_all [replRank]

theorem step_replicated_terminal {st : DriverState} (e : Event)
    (h : st.repl = ReplicationState.REPLICATED) :
    (step st e).repl = ReplicationState.REPLICATED := by
  cases e <;>
    simp only [step, handleFailure, applyAsync] <;>
    (repeat' split) <;>
    simp_all

theorem step_failed_terminal {st : DriverState} (e : Event)
    (h : st.repl = ReplicationState.REPLICATION_FAILED) :
    (step st e).repl = ReplicationState.REPLICATION_FAILED ∧
    (step st e).applyCount = st.applyCount := by
  cases e <;>
    simp only [step, handleFailure, applyAsync] <;>
    (repeat' split) <;>
    simp_all

theorem step_prep_forward (st : DriverState) (e : Event) :
    prepRank st.prep ≤ prepRank (step st e).prep := by
  cases e <;>
    simp only [step, handleFailure, applyAsync] <;>
    (repeat' split) <;>
    simp_all [prepRank]

theorem run_failed_terminal {st : DriverState} (es : List Event)
    (h : st.repl = ReplicationState.REPLICATION_FAILED) :
    (run st es).repl = ReplicationState.REPLICATION_FAILED ∧
    (run st es).applyCount = st.applyCount := by
  induction es generalizing st with
  | nil => exact ⟨h, rfl⟩
  | cons e es ih =>
    obtain ⟨hr, hc⟩ := step_failed_terminal e h
    obtain ⟨ihr, ihc⟩ := ih hr
    exact ⟨ihr, by rw [run] at ihc ⊢; simp only [List.foldl_cons]; omega⟩

theorem step_opId_stable {st : DriverState} (e : Event)
    (h : st.repl ≠ ReplicationState.REPLICATING) :
    (step st e).opId = st.opId := by
  cases e <;>
    simp only [step, handleFailure, applyAsync] <;>
    (repeat' split) <;>
    simp_all

theorem run_opId_stable {st : DriverState} (h : Inv st) {v : OpId}
    (hv : st.opId = some v) (es : List Event) :
    (run st es).opId = some v := by
  induction es generalizing st with
  | nil => exact hv
  | cons e es ih =>
    have hterm : st.repl ≠ ReplicationState.REPLICATING := by
      rcases h.2.2.1 (by simp [hv]) with hr | hr <;> simp [hr]
    have hstep : (step st e).opId = some v := (step_opId_stable e hterm).trans hv
    exact ih (inv_step h e) hstep

theorem step_opId_none {st : DriverState} (e : Event)
    (he : isAssignEvent e = false) (h : st.opId = none) :
    (step st e).opId = none := by
  cases e <;>
    simp only [step, handleFailure, applyAsync] <;>
    (repeat' split) <;>
    simp_all [isAssignEvent]

theorem run_opId_none (d : DriverType) (es : List Event)
    (hes : ∀ e ∈ es, isAssignEvent e = false) :
    (run (init d) es).opId = none := by
  have key : ∀ (fs : List Event) (st : DriverState), st.opId = none →
      (∀ e ∈ fs, isAssignEvent e = false) → (run st fs).opId = none := by
    intro fs
    induction fs with
    | nil => intro st h _; exact h
    | cons e fs ih =>
      intro st h hall
      exact ih _ (step_opId_none e (hall e (by simp)) h) fun f hf => hall f (by simp [hf])
  exact key es (init d) (by cases d <;> rfl) hes

theorem step_from_not_replicating {st : DriverState} (e : Event)
    (h : st.repl = ReplicationState.NOT_REPLICATING) :
    (step st e).repl = ReplicationState.NOT_REPLICATING ∨
    (step st e).repl = ReplicationState.REPLICATING ∨
    (step st e).repl = ReplicationState.REPLICATION_FAILED := by
  cases e <;>
    simp only [step, handleFailure, applyAsync] <;>
    (repeat' split) <;>
    simp_all

theorem step_from_replicating {st : DriverState} (e : Event)
    (h : st.repl = ReplicationState.REPLICATING) :
    (step st e).repl = ReplicationState.REPLICATING ∨
    (step st e).repl = ReplicationState.REPLICATED ∨
    (step st e).repl = ReplicationState.REPLICATION_FAILED := by
  cases e <;>
    simp only [step, handleFailure, applyAsync] <;>
    (repeat' split) <;>
    simp_all

theorem step_prepared_terminal {st : DriverState} (e : Event)
    (h : st.prep = PrepareState.PREPARED) :
    (step st e).prep = PrepareState.PREPARED := by
  cases e <;>
    simp only [step, handleFailure, applyAsync] <;>
    (repeat' split) <;>
    simp_all

theorem step_to_replicated {st : DriverState} {e : Event}
    (h : (step st e).repl = ReplicationState.REPLICATED) :
    st.repl = ReplicationState.REPLICATED ∨
    ∃ id, e = Event.replicationFinished Status.OK id := by
  cases e with
  | replicationFinished s id =>
    cases s with
    | OK => exact Or.inr ⟨id, rfl⟩
    | Err c =>
      left
      simp only [step, handleFailure, applyAsync] at h
      (repeat' split at h) <;> simp_all
  | _ =>
    left
    simp only [step, handleFailure, applyAsync] at h
    (repeat' split at h) <;> simp_all

/-- C3: `Init` sets the initial replication state from the mode: the
follower/replica path starts at `REPLICATING`, the leader path at
`NOT_REPLICATING`. -/
theorem C3_init_replication_state :
    (init DriverType.REPLICA).repl = ReplicationState.REPLICATING ∧
    (init DriverType.LEADER).repl = ReplicationState.NOT_REPLICATING := by
  exact ⟨rfl, rfl⟩

/-- C9: `is_leader_side()` returns true iff `replication_state ==
NOT_REPLICATING`; hence a follower driver reports false immediately after
`Init`, and any driver whose replication round has been submitted (state
`REPLICATING` or later) reports false. -/
theorem C9_is_leader_side (st st₂ : DriverState)
    (h : st.repl ≠ ReplicationState.NOT_REPLICATING) :
    (is_leader_side st₂ = true ↔ st₂.repl = ReplicationState.NOT_REPLICATING) ∧
    is_leader_side (init DriverType.REPLICA) = false ∧
    is_leader_side st = false := by
  refine ⟨by simp [is_leader_side], rfl, by simp [is_leader_side, h]⟩

theorem C9_is_leader_side_witness :
    ((is_leader_side (init DriverType.LEADER) = true ↔
      (init DriverType.LEADER).repl = ReplicationState.NOT_REPLICATING) ∧
     is_leader_side (init DriverType.REPLICA) = false ∧
     is_leader_side (init DriverType.REPLICA) = false) :=
  C9_is_leader_side (init DriverType.REPLICA) (init DriverType.LEADER) (by decide)

/-- C2 (counterexample to the claim as stated): the replication state does not
only advance along the chain `NOT_REPLICATING → REPLICATING → {REPLICATED |
REPLICATION_FAILED}`: a failure to submit the round for replication moves a
reachable driver directly from `NOT_REPLICATING` to `REPLICATION_FAILED`,
skipping `REPLICATING`. -/
theorem C2_chain_counterexample :
    Reachable (init DriverType.LEADER) ∧
    (init DriverType.LEADER).repl = ReplicationState.NOT_REPLICATING ∧
    (step (init DriverType.LEADER)
        (Event.submitReplicationFail (Status.Err 7))).repl
      = ReplicationState.REPLICATION_FAILED := by
  exact ⟨⟨DriverType.LEADER, [], rfl⟩, rfl, rfl⟩

/-- C2 (amended): in every state and under every event, `replication_state`
only moves forward: from `NOT_REPLICATING` to `REPLICATING`, or directly to
`REPLICATION_FAILED` when submission fails (never directly to `REPLICATED`);
from `REPLICATING` to `REPLICATED` or `REPLICATION_FAILED`; never backward;
`REPLICATED` and `REPLICATION_FAILED` are terminal for that dimension; and
`prepare_state` only moves from `NOT_PREPARED` to `PREPARED`, never backward. -/
theorem C2_state_monotone (st : DriverState) (e : Event) :
    (replRank st.repl ≤ replRank (step st e).repl ∧
     prepRank st.prep ≤ prepRank (step st e).prep) ∧
    ((st.repl = ReplicationState.NOT_REPLICATING →
        (step st e).repl = ReplicationState.NOT_REPLICATING ∨
        (step st e).repl = ReplicationState.REPLICATING ∨
        (step st e).repl = ReplicationState.REPLICATION_FAILED) ∧
     (st.repl = ReplicationState.REPLICATING →
        (step st e).repl = ReplicationState.REPLICATING ∨
        (step st e).repl = ReplicationState.REPLICATED ∨
        (step st e).repl = ReplicationState.REPLICATION_FAILED) ∧
     (st.repl = ReplicationState.REPLICATED →
        (step st e).repl = ReplicationState.REPLICATED) ∧
     (st.repl = ReplicationState.REPLICATION_FAILED →
        (step st e).repl = ReplicationState.REPLICATION_FAILED)) ∧
    (st.prep = PrepareState.PREPARED → (step st e).prep = PrepareState.PREPARED) := by
  refine ⟨⟨step_repl_forward st e, step_prep_forward st e⟩,
    ⟨fun h => step_from_not_replicating e h,
     fun h => step_from_replicating e h,
     fun h => step_replicated_terminal e h,
     fun h => (step_failed_terminal e h).1⟩,
    fun h => step_prepared_terminal e h⟩

/-- C6: `HandleFailure(status)` in a state where the operation has not
replicated (and apply has not started) fails the operation back to the caller
with the given status and releases it, and does not raise the fatal condition;
`HandleFailure` reached after replication has been durably committed by quorum
raises the fatal process condition instead of delivering a normal error. -/
theorem C6_handle_failure (st stc : DriverState) (s sc : Status)
    (hnr : st.repl ≠ ReplicationState.REPLICATED) (hna : st.applyCount = 0)
    (hc : stc.repl = ReplicationState.REPLICATED) :
    ((handleFailure s st).failedStatus = some s ∧
     (handleFailure s st).released = true ∧
     (handleFailure s st).fatal = st.fatal) ∧
    ((handleFailure sc stc).fatal = true ∧
     (handleFailure sc stc).failedStatus = stc.failedStatus ∧
     (handleFailure sc stc).released = stc.released) := by
  simp [handleFailure, hnr, hc]

/-- C1: in every reachable state and for every event, the apply task has been
scheduled at most once; and whenever a transition schedules the apply task,
the post-state has `prepare_state = PREPARED` and `replication_state =
REPLICATED`, and the triggering event is whichever of the two completion
events (prepare finishing, replication finishing) arrived second: either
prepare completes with replication already `REPLICATED`, or the replication
callback reports OK with prepare already `PREPARED`. -/
theorem C1_apply_scheduled_once (st : DriverState) (e : Event) (h : Reachable st) :
    (step st e).applyCount ≤ 1 ∧
    (st.applyCount < (step st e).applyCount →
      (step st e).prep = PrepareState.PREPARED ∧
      (step st e).repl = ReplicationState.REPLICATED ∧
      ((e = Event.prepareDone ∧ st.repl = ReplicationState.REPLICATED ∧
        st.prep = PrepareState.NOT_PREPARED) ∨
       (∃ id, e = Event.replicationFinished Status.OK id ∧
        st.prep = PrepareState.PREPARED ∧ st.repl = ReplicationState.REPLICATING))) := by
  refine ⟨(inv_step (reachable_inv h) e).1, ?_⟩
  cases e <;>
    simp only [step, handleFailure, applyAsync] <;>
    (repeat' split) <;>
    (intro hlt) <;>
    simp_all

theorem C1_apply_scheduled_once_witness :
    (step (run (init DriverType.REPLICA) [Event.prepareDone])
        (Event.replicationFinished Status.OK ⟨3, 4⟩)).applyCount ≤ 1 ∧
    ((run (init DriverType.REPLICA) [Event.prepareDone]).applyCount <
        (step (run (init DriverType.REPLICA) [Event.prepareDone])
          (Event.replicationFinished Status.OK ⟨3, 4⟩)).applyCount →
      (step (run (init DriverType.REPLICA) [Event.prepareDone])
        (Event.replicationFinished Status.OK ⟨3, 4⟩)).prep = PrepareState.PREPARED ∧
      (step (run (init DriverType.REPLICA) [Event.prepareDone])
        (Event.replicationFinished Status.OK ⟨3, 4⟩)).repl
          = ReplicationState.REPLICATED ∧
      ((Event.replicationFinished Status.OK ⟨3, 4⟩ = Event.prepareDone ∧
        (run (init DriverType.REPLICA) [Event.prepareDone]).repl
          = ReplicationState.REPLICATED ∧
        (run (init DriverType.REPLICA) [Event.prepareDone]).prep
          = PrepareState.NOT_PREPARED) ∨
       (∃ id, Event.replicationFinished Status.OK ⟨3, 4⟩
          = Event.replicationFinished Status.OK id ∧
        (run (init DriverType.REPLICA) [Event.prepareDone]).prep
          = PrepareState.PREPARED ∧
        (run (init DriverType.REPLICA) [Event.prepareDone]).repl
          = ReplicationState.REPLICATING))) :=
  C1_apply_scheduled_once (run (init DriverType.REPLICA) [Event.prepareDone])
    (Event.replicationFinished Status.OK ⟨3, 4⟩)
    ⟨DriverType.REPLICA, [Event.prepareDone], rfl⟩

/-- C4: `GetOpId()` returns the uninitialized (unset) operation id in every
state reached without the replication callback having assigned one, and once
assigned the id is stable: every later state returns the same value. -/
theorem C4_opid_unset_then_stable (d : DriverType) (es : List Event)
    (hes : ∀ e ∈ es, isAssignEvent e = false)
    (st : DriverState) (h : Reachable st) (v : OpId) (hv : GetOpId st = some v)
    (fs : List Event) :
    GetOpId (run (init d) es) = none ∧ GetOpId (run st fs) = some v :=
  ⟨run_opId_none d es hes, run_opId_stable (reachable_inv h) hv fs⟩

theorem C4_opid_unset_then_stable_witness :
    GetOpId (run (init DriverType.LEADER)
      [Event.prepareDone, Event.submitReplicationOk]) = none ∧
    GetOpId (run (run (init DriverType.REPLICA)
        [Event.replicationFinished Status.OK ⟨1, 2⟩])
      [Event.prepareDone, Event.applyTaskRun]) = some ⟨1, 2⟩ :=
  C4_opid_unset_then_stable DriverType.LEADER
    [Event.prepareDone, Event.submitReplicationOk] (by decide)
    (run (init DriverType.REPLICA) [Event.replicationFinished Status.OK ⟨1, 2⟩])
    ⟨DriverType.REPLICA, [Event.replicationFinished Status.OK ⟨1, 2⟩], rfl⟩
    ⟨1, 2⟩ (by decide) [Event.prepareDone, Event.applyTaskRun]

/-- C5: in a reachable state with `replication_state = REPLICATING`, the
replication callback with a non-OK status moves the driver to
`REPLICATION_FAILED` and routes it to `HandleFailure` (the failure status is
delivered to the caller), and no apply task is ever scheduled for that driver
afterwards; and `REPLICATED` is only ever entered by the callback with an OK
status. -/
theorem C5_replication_failure (st st₂ : DriverState) (h : Reachable st)
    (hr : st.repl = ReplicationState.REPLICATING)
    (c : Nat) (id : OpId) (es : List Event) (e₂ : Event) :
    (step st (Event.replicationFinished (Status.Err c) id)).repl
      = ReplicationState.REPLICATION_FAILED ∧
    (step st (Event.replicationFinished (Status.Err c) id)).failedStatus
      = some (Status.Err c) ∧
    (run (step st (Event.replicationFinished (Status.Err c) id)) es).applyCount
      = 0 ∧
    ((step st₂ e₂).repl = ReplicationState.REPLICATED →
      st₂.repl = ReplicationState.REPLICATED ∨
      ∃ i, e₂ = Event.replicationFinished Status.OK i) := by
  have hc0 : st.applyCount = 0 := by
    rcases Nat.eq_zero_or_pos st.applyCount with h0 | hpos
    · exact h0
    · have hrep := ((reachable_inv h).2.1 hpos).2
      rw [hr] at hrep
      exact absurd hrep (by decide)
  have h1 : (step st (Event.replicationFinished (Status.Err c) id)).repl
      = ReplicationState.REPLICATION_FAILED := by
    simp [step, hr, handleFailure]
  have h2 : (step st (Event.replicationFinished (Status.Err c) id)).applyCount
      = st.applyCount := by
    simp [step, hr, handleFailure]
  refine ⟨h1, by simp [step, hr, handleFailure], ?_, fun hrep => step_to_replicated hrep⟩
  rw [(run_failed_terminal es h1).2, h2, hc0]

theorem C5_replication_failure_witness :
    (step (init DriverType.REPLICA)
        (Event.replicationFinished (Status.Err 3) ⟨1, 1⟩)).repl
      = ReplicationState.REPLICATION_FAILED ∧
    (step (init DriverType.REPLICA)
        (Event.replicationFinished (Status.Err 3) ⟨1, 1⟩)).failedStatus
      = some (Status.Err 3) ∧
    (run (step (init DriverType.REPLICA)
        (Event.replicationFinished (Status.Err 3) ⟨1, 1⟩))
      [Event.prepareDone, Event.applyTaskRun]).applyCount = 0 ∧
    ((step (init DriverType.LEADER) Event.prepareDone).repl
        = ReplicationState.REPLICATED →
      (init DriverType.LEADER).repl = ReplicationState.REPLICATED ∨
      ∃ i, Event.prepareDone = Event.replicationFinished Status.OK i) :=
  C5_replication_failure (init DriverType.REPLICA) (init DriverType.LEADER)
    (reachable_init DriverType.REPLICA) rfl 3 ⟨1, 1⟩
    [Event.prepareDone, Event.applyTaskRun] Event.prepareDone

/-- C7: in every reachable state, `Finalize` has run only if the commit record
was durably appended to the log (which itself requires the apply task to have
enqueued it), and success has been reported to the caller only if the commit
record is durable: visibility and the success reply never precede durability
of the commit record. -/
theorem C7_finalize_after_durable (st : DriverState) (h : Reachable st) :
    (st.finalized = true → st.commitDurable = true ∧ st.commitSubmitted = true) ∧
    (st.repliedSuccess = true → st.commitDurable = true) := by
  obtain ⟨-, -, -, -, h5, h6, h7⟩ := reachable_inv h
  exact ⟨fun hf => ⟨h6 hf, h5 (h6 hf)⟩, fun hs => h6 (h7 hs)⟩

theorem C7_finalize_after_durable_witness :
    ((run (init DriverType.LEADER)
        [Event.prepareDone, Event.submitReplicationOk,
         Event.replicationFinished Status.OK ⟨1, 1⟩, Event.applyTaskRun,
         Event.commitRecordDurable]).finalized = true →
      (run (init DriverType.LEADER)
        [Event.prepareDone, Event.submitReplicationOk,
         Event.replicationFinished Status.OK ⟨1, 1⟩, Event.applyTaskRun,
         Event.commitRecordDurable]).commitDurable = true ∧
      (run (init DriverType.LEADER)
        [Event.prepareDone, Event.submitReplicationOk,
         Event.replicationFinished Status.OK ⟨1, 1⟩, Event.applyTaskRun,
         Event.commitRecordDurable]).commitSubmitted = true) ∧
    ((run (init DriverType.LEADER)
        [Event.prepareDone, Event.submitReplicationOk,
         Event.replicationFinished Status.OK ⟨1, 1⟩, Event.applyTaskRun,
         Event.commitRecordDurable]).repliedSuccess = true →
      (run (init DriverType.LEADER)
        [Event.prepareDone, Event.submitReplicationOk,
         Event.replicationFinished Status.OK ⟨1, 1⟩, Event.applyTaskRun,
         Event.commitRecordDurable]).commitDurable = true) :=
  C7_finalize_after_durable
    (run (init DriverType.LEADER)
      [Event.prepareDone, Event.submitReplicationOk,
       Event.replicationFinished Status.OK ⟨1, 1⟩, Event.applyTaskRun,
       Event.commitRecordDurable])
    ⟨DriverType.LEADER,
     [Event.prepareDone, Event.submitReplicationOk,
      Event.replicationFinished Status.OK ⟨1, 1⟩, Event.applyTaskRun,
      Event.commitRecordDurable], rfl⟩

/-- C8: when replication has already reported success and the commit record is
in the durability pipeline, recording an `Abort` does not prevent `Finalize`
from running; but the finalize then carries no visible success reply, and in
general a success reply can only appear on a transition on which no abort had
been recorded. -/
theorem C8_abort_after_commit (st st₂ : DriverState) (s : Status) (e : Event)
    (hrep : st.repl = ReplicationState.REPLICATED)
    (hcs : st.commitSubmitted = true) (hf : st.finalized = false) :
    (step (step st (Event.abort s)) Event.commitRecordDurable).finalized = true ∧
    (step (step st (Event.abort s)) Event.commitRecordDurable).repliedSuccess
      = false ∧
    ((step st₂ e).repliedSuccess = true →
      st₂.repliedSuccess = true ∨ st₂.abortStatus = none) := by
  refine ⟨?_, ?_, ?_⟩
  · cases habort : st.abortStatus <;> simp [step, habort, hcs, hf]
  · cases habort : st.abortStatus <;> simp [step, habort, hcs, hf]
  · intro hsucc
    cases e <;>
      simp only [step, handleFailure, applyAsync] at hsucc <;>
      (repeat' split at hsucc) <;>
      simp_all

theorem C8_abort_after_commit_witness :
    (step (step (run (init DriverType.REPLICA)
          [Event.prepareDone, Event.replicationFinished Status.OK ⟨1, 1⟩,
           Event.applyTaskRun])
        (Event.abort (Status.Err 9))) Event.commitRecordDurable).finalized
      = true ∧
    (step (step (run (init DriverType.REPLICA)
          [Event.prepareDone, Event.replicationFinished Status.OK ⟨1, 1⟩,
           Event.applyTaskRun])
        (Event.abort (Status.Err 9))) Event.commitRecordDurable).repliedSuccess
      = false ∧
    ((step (init DriverType.LEADER) Event.prepareDone).repliedSuccess = true →
      (init DriverType.LEADER).repliedSuccess = true ∨
      (init DriverType.LEADER).abortStatus = none) :=
  C8_abort_after_commit
    (run (init DriverType.REPLICA)
      [Event.prepareDone, Event.replicationFinished Status.OK ⟨1, 1⟩,
       Event.applyTaskRun])
    (init DriverType.LEADER) (Status.Err 9) Event.prepareDone
    (by decide) (by decide) (by decide)

theorem C6_handle_failure_witness :
    ((handleFailure (Status.Err 5) (init DriverType.LEADER)).failedStatus
        = some (Status.Err 5) ∧
     (handleFailure (Status.Err 5) (init DriverType.LEADER)).released = true ∧
     (handleFailure (Status.Err 5) (init DriverType.LEADER)).fatal
        = (init DriverType.LEADER).fatal) ∧
    ((handleFailure (Status.Err 6)
        { init DriverType.LEADER with repl := ReplicationState.REPLICATED }).fatal
        = true ∧
     (handleFailure (Status.Err 6)
        { init DriverType.LEADER with repl := ReplicationState.REPLICATED }).failedStatus
        = { init DriverType.LEADER with
            repl := ReplicationState.REPLICATED }.failedStatus ∧
     (handleFailure (Status.Err 6)
        { init DriverType.LEADER with repl := ReplicationState.REPLICATED }).released
        = { init DriverType.LEADER with
            repl := ReplicationState.REPLICATED }.released) :=
  C6_handle_failure (init DriverType.LEADER)
    { init DriverType.LEADER with repl := ReplicationState.REPLICATED }
    (Status.Err 5) (Status.Err 6) (by decide) rfl rfl

end TxnDriver

namespace DebugUtil

theorem fastHex64Writes_off_le (value dst : Nat) :
    ∀ w ∈ fastHex64Writes value dst, w.off ≤ dst + kHexEntryLength := by
  intro w hw
  simp only [fastHex64Writes, List.mem_append, List.mem_map, List.mem_range,
    List.mem_singleton] at hw
  rcases hw with ⟨j, hj, rfl⟩ | rfl <;> simp [kHexEntryLength] <;> omega

theorem stringifyWrites_bound (frames : List Nat) (i dst limit : Nat)
    (noFix : Bool) :
    ∀ w ∈ stringifyWrites frames i dst limit noFix,
      w.off ≤ limit + kHexEntryLength := by
  induction frames generalizing i dst with
  | nil => simp [stringifyWrites]
  | cons addr rest ih =>
    intro w hw
    by_cases hlt : dst < limit
    · simp only [stringifyWrites, if_pos hlt, List.mem_append] at hw
      rcases hw with (hw | hw) | hw
      · rcases (by split at hw <;> simp_all :
            w = (⟨dst, 32⟩ : WriteOp)) with rfl
        exact le_trans (le_of_lt hlt) (Nat.le_add_right _ _)
      · have hb := fastHex64Writes_off_le _ _ w hw
        have hd1 : (if i ≠ 0 then dst + 1 else dst) ≤ limit := by
          split <;> omega
        omega
      · exact ih _ _ w hw
    · simp [stringifyWrites, hlt] at hw

theorem stringifyFinalDst_bound (frames : List Nat) (i dst limit : Nat)
    (hdst : dst ≤ limit + kHexEntryLength) :
    stringifyFinalDst frames i dst limit ≤ limit + kHexEntryLength := by
  induction frames generalizing i dst with
  | nil => simpa [stringifyFinalDst] using hdst
  | cons addr rest ih =>
    by_cases hlt : dst < limit
    · simp only [stringifyFinalDst, if_pos hlt]
      refine ih _ _ ?_
      have : (if i ≠ 0 then dst + 1 else dst) ≤ limit := by split <;> omega
      simp only [kHexEntryLength] at *
      omega
    · simpa [stringifyFinalDst, hlt] using hdst

theorem applyWrites_append_last (ws : List WriteOp) (p b : Nat)
    (buf : Nat → Nat) :
    applyWrites (ws ++ [⟨p, b⟩]) buf p = b := by
  simp [applyWrites, List.foldl_append]

/-- C10: for every stack trace (any number of frames up to `kMaxFrames`) and
every output buffer of size at least `kHexEntryLength + 2`,
`StackTrace::StringifyToHex` stores only within the first `size` bytes of the
buffer (every store offset is `< size`), and the resulting buffer is
NUL-terminated: a NUL byte ends up at an in-bounds offset. Frames that do not
fit under the reserved-space limit produce no stores at all. -/
theorem C10_stringify_to_hex_safe (frames : List Nat) (size : Nat)
    (noFix : Bool) (buf : Nat → Nat)
    (hsize : kHexEntryLength + 2 ≤ size) (hframes : frames.length ≤ kMaxFrames) :
    (∀ w ∈ stringifyToHex frames size noFix, w.off < size) ∧
    (∃ p, p < size ∧ applyWrites (stringifyToHex frames size noFix) buf p = 0) := by
  have hlim : size - kHexEntryLength - 2 + kHexEntryLength < size := by
    simp only [kHexEntryLength] at *
    omega
  constructor
  · intro w hw
    simp only [stringifyToHex, List.mem_append, List.mem_singleton] at hw
    rcases hw with hw | rfl
    · exact lt_of_le_of_lt (stringifyWrites_bound frames 0 0 _ noFix w hw) hlim
    · exact lt_of_le_of_lt
        (stringifyFinalDst_bound frames 0 0 _ (Nat.zero_le _)) hlim
  · refine ⟨stringifyFinalDst frames 0 0 (size - kHexEntryLength - 2), ?_, ?_⟩
    · exact lt_of_le_of_lt
        (stringifyFinalDst_bound frames 0 0 _ (Nat.zero_le _)) hlim
    · exact applyWrites_append_last _ _ _ buf

theorem C10_stringify_to_hex_safe_witness :
    (∀ w ∈ stringifyToHex [4096, 8192, 12288] 20 false, w.off < 20) ∧
    (∃ p, p < 20 ∧
      applyWrites (stringifyToHex [4096, 8192, 12288] 20 false)
        (fun _ => 255) p = 0) :=
  C10_stringify_to_hex_safe [4096, 8192, 12288] 20 false (fun _ => 255)
    (by decide) (by decide)

end DebugUtil
